import Mathlib

/-!
Shallow embedding of the AutoDocify generation/regeneration/export pipeline.

Sources embedded here:
- src/src/ai/flows/generate-documentation.ts (input/output schemas)
- src/src/ai/flows/regenerate-documentation-section.ts (input/output schemas)
- src/src/lib/actions.ts and src/unnamed/part_002 (server actions
  handleGenerateDocs, handleRegenerateSection, handleExportToGitBook)
- src/unnamed/part_001 (client page: formSchema, onSubmit, onRegenerateSubmit,
  regeneration dialog section/tone choices)
- src/unnamed/part_003 (export-to-gitbook flow: doExportToGitBookFlow)

The external LLM capability (genkit flows calling the model) is passed in as an
explicit function argument of type Input to Except String Output; an error value
models a thrown exception whose message is the carried string.
-/

namespace AutoDocify

/-- Output schema of generate-documentation.ts: the DocumentSet. All four
sections are mandatory string fields of the one response object. -/
structure GenerateDocumentationOutput where
  readme : String
  apiDocs : String
  userManual : String
  faq : String
deriving DecidableEq, Repr

/-- Input schema of generate-documentation.ts. -/
structure GenerateDocumentationInput where
  codebase : String
  uiOnlyMode : Bool
deriving DecidableEq, Repr

/-- Input schema of regenerate-documentation-section.ts. All three fields are
plain strings in the source schema (z.string with only a description). -/
structure RegenerateDocumentationSectionInput where
  codebase : String
  sectionName : String
  tone : String
deriving DecidableEq, Repr

/-- Output schema of regenerate-documentation-section.ts. -/
structure RegenerateDocumentationSectionOutput where
  regeneratedContent : String
deriving DecidableEq, Repr

/-- ActionResult interface from src/src/lib/actions.ts. An absent field is
modeled by none. -/
structure ActionResult (T : Type) where
  data : Option T
  error : Option String
deriving DecidableEq, Repr

/-- JavaScript truthiness of an optional string: undefined and the empty string
are falsy, every other string is truthy. -/
def strTruthy : Option String → Bool
  | none => false
  | some s => !s.isEmpty

/-- The four fixed section identifiers of the DocumentSet. -/
inductive SectionId
  | readme
  | apiDocs
  | userManual
  | faq
deriving DecidableEq, Repr

/-- String key of a section identifier, as used by the client page as object
keys and select values. -/
def SectionId.key : SectionId → String
  | .readme => "readme"
  | .apiDocs => "apiDocs"
  | .userManual => "userManual"
  | .faq => "faq"

/-- Projection of one section of a DocumentSet. -/
def sectionGet (d : GenerateDocumentationOutput) : SectionId → String
  | .readme => d.readme
  | .apiDocs => d.apiDocs
  | .userManual => d.userManual
  | .faq => d.faq

/-- Section keys offered by the regeneration dialog (the ids of
docSections/docSectionsConfig in the client pages). -/
def sectionKeys : List String := ["readme", "apiDocs", "userManual", "faq"]

/-- Tone values offered by the regeneration dialog of src/unnamed/part_001
(SelectItem values). -/
def toneValues : List String :=
  ["developer-friendly", "business-friendly", "formal", "casual", "ui-focused"]

/-- Object spread with a computed key, from onRegenerateSubmit:
setDocs of prevDocs spread with the field named sectionName replaced by the
new content. Restricted to the four typed fields; a key outside the four
leaves all four fields unchanged (in JS it would only add an extraneous
property invisible to the typed DocumentSet). -/
def updateSection (d : GenerateDocumentationOutput) (name content : String) :
    GenerateDocumentationOutput :=
  { readme := if name = "readme" then content else d.readme
    apiDocs := if name = "apiDocs" then content else d.apiDocs
    userManual := if name = "userManual" then content else d.userManual
    faq := if name = "faq" then content else d.faq }

/-- Request object built by handleRegenerateSection in src/src/lib/actions.ts:
the literal with codebase, sectionName and tone; the uiOnlyMode parameter is
accepted but never used in the request. -/
def regenRequestOf (codebase sectionName tone : String) (_uiOnlyMode : Bool) :
    RegenerateDocumentationSectionInput :=
  { codebase := codebase, sectionName := sectionName, tone := tone }

/-- handleGenerateDocs from src/src/lib/actions.ts. The flow argument models
the generateDocumentation capability; a thrown error is an error value carrying
the message, and the catch branch substitutes the fixed fallback text when the
message is falsy (empty). -/
def handleGenerateDocs (codebaseInput : String) (uiOnlyMode : Bool)
    (flow : GenerateDocumentationInput →
      Except String GenerateDocumentationOutput) :
    ActionResult GenerateDocumentationOutput :=
  match flow { codebase := codebaseInput, uiOnlyMode := uiOnlyMode } with
  | .ok result => { data := some result, error := none }
  | .error m =>
      { data := none
        error := some (if m = "" then "Failed to generate documentation." else m) }

/-- handleRegenerateSection from src/src/lib/actions.ts. It builds the request
with regenRequestOf (ignoring uiOnlyMode), calls the flow, and wraps the
outcome exactly as handleGenerateDocs does, with its own fallback text. -/
def handleRegenerateSection (codebase sectionName tone : String)
    (uiOnlyMode : Bool)
    (flow : RegenerateDocumentationSectionInput →
      Except String RegenerateDocumentationSectionOutput) :
    ActionResult RegenerateDocumentationSectionOutput :=
  match flow (regenRequestOf codebase sectionName tone uiOnlyMode) with
  | .ok result => { data := some result, error := none }
  | .error m =>
      { data := none
        error := some (if m = "" then "Failed to regenerate section." else m) }

/-- onRegenerateSubmit from src/unnamed/part_001 (lines 291 to 324), composed
with handleRegenerateSection: guard on an empty codebase context, guard on
absent docs, then on a successful result replace the target section by an
object spread; on a truthy result error leave docs unchanged. The returned
value is the docs state after the handler ran. -/
def onRegenerateSubmitWith
    (flow : RegenerateDocumentationSectionInput →
      Except String RegenerateDocumentationSectionOutput)
    (ctx : String) (uiOnlyMode : Bool)
    (docs : Option GenerateDocumentationOutput)
    (sectionName tone : String) : Option GenerateDocumentationOutput :=
  if ctx = "" then docs
  else
    match docs with
    | none => none
    | some d =>
        let result := handleRegenerateSection ctx sectionName tone uiOnlyMode flow
        if strTruthy result.error then some d
        else
          match result.data with
          | some out => some (updateSection d sectionName out.regeneratedContent)
          | none => some d

/-- Sequence of docs states observed during onSubmit of src/unnamed/part_001
(lines 272 to 289): the previous docs, then none (setDocs null before the
capability call), then, only when the action result carries data and no truthy
error, the whole response object in a single setDocs. -/
def submitDocsStates (prev : Option GenerateDocumentationOutput)
    (result : ActionResult GenerateDocumentationOutput) :
    List (Option GenerateDocumentationOutput) :=
  prev :: none ::
    (if strTruthy result.error then []
     else
       match result.data with
       | some out => [some out]
       | none => [])

/-- Input method of the form: the inputType enum of formSchema in
src/unnamed/part_001 has exactly the two members url and file. -/
inductive InputType
  | url
  | file
deriving DecidableEq, Repr

/-- First (and only, per the FileList access codeFile[0]) uploaded file. The
dataUrl field carries the result of a successful readFileAsDataURL, the
self-describing data URI the browser produces for the file bytes. -/
structure CodeFile where
  name : String
  type : String
  dataUrl : String
deriving DecidableEq, Repr

/-- Values of the generation form of src/unnamed/part_001. An absent or empty
FileList is modeled as none in codeFile. -/
structure FormValues where
  inputType : InputType
  githubUrl : String
  codeFile : Option CodeFile
  uiOnlyMode : Bool
  uiDescription : String
deriving DecidableEq, Repr

/-- Trim as used by the zod refinements (the JS string trim): strip leading
and trailing whitespace. -/
def jsTrim (s : String) : String :=
  String.mk (((s.data.dropWhile Char.isWhitespace).reverse.dropWhile
    Char.isWhitespace).reverse)

/-- First refinement of formSchema (src/unnamed/part_001 lines 160 to 170):
in uiOnlyMode the uiDescription must be truthy and nonblank after trim;
otherwise the field matching inputType must be provided. Its issue path is
uiDescription. -/
def refineMain (v : FormValues) : Bool :=
  if v.uiOnlyMode then
    decide (v.uiDescription ≠ "" ∧ jsTrim v.uiDescription ≠ "")
  else
    match v.inputType with
    | .url => decide (v.githubUrl ≠ "" ∧ jsTrim v.githubUrl ≠ "")
    | .file => v.codeFile.isSome

/-- Second refinement of formSchema (lines 171 to 173): outside uiOnlyMode, a
url inputType requires a nonblank githubUrl. Issue path githubUrl. -/
def refineUrl (v : FormValues) : Bool :=
  v.uiOnlyMode ||
    match v.inputType with
    | .url => decide (v.githubUrl ≠ "" ∧ jsTrim v.githubUrl ≠ "")
    | .file => true

/-- Third refinement of formSchema (lines 174 to 177): outside uiOnlyMode, a
file inputType requires a present first file. Issue path codeFile. -/
def refineFile (v : FormValues) : Bool :=
  v.uiOnlyMode ||
    match v.inputType with
    | .url => true
    | .file => v.codeFile.isSome

/-- Issues produced by the three refinements of formSchema, in source order,
each with the path and message the source attaches. -/
def formSchemaIssues (v : FormValues) : List (String × String) :=
  (if refineMain v then []
   else
     [("uiDescription",
       "Input is required. For UI-Only mode, provide a UI description. For code mode, provide a GitHub URL or .zip file.")]) ++
  (if refineUrl v then []
   else
     [("githubUrl",
       "GitHub URL is required when input type is URL and not in UI-Only mode.")]) ++
  (if refineFile v then []
   else
     [("codeFile",
       "A .zip file is required when input type is file and not in UI-Only mode.")])

/-- Outcome of a form submission. fieldError covers both a zod issue reported
by the resolver and a manual form.setError in onSubmit, with the field path and
message; toastError is a toast-only failure; generate is the call to
handleGenerateDocs with the canonical input string and the uiOnlyMode flag. -/
inductive SubmitOutcome
  | fieldError (field message : String)
  | toastError (message : String)
  | generate (input : String) (uiOnlyMode : Bool)
deriving DecidableEq, Repr

/-- onSubmit of src/unnamed/part_001 (lines 241 to 278), up to and including
the choice of the string handed to handleGenerateDocs. In uiOnlyMode the input
is the uiDescription (with a manual setError on uiDescription when empty);
otherwise the githubUrl or the uploaded zip file as a data URI, after the
zip-type check. A successful file read is modeled by the dataUrl field. -/
def onSubmit (v : FormValues) : SubmitOutcome :=
  if v.uiOnlyMode then
    if v.uiDescription = "" then
      .fieldError "uiDescription"
        "UI description or Figma link is required for UI-Only mode."
    else .generate v.uiDescription true
  else if v.inputType = InputType.url ∧ v.githubUrl ≠ "" then
    .generate v.githubUrl false
  else if v.inputType = InputType.file ∧ v.codeFile.isSome then
    match v.codeFile with
    | some f =>
        if f.type ≠ "application/zip" ∧ ¬f.name.endsWith ".zip" then
          .fieldError "codeFile" "Please upload a .zip file for codebase analysis."
        else .generate f.dataUrl false
    | none => .toastError "Please provide the necessary input for documentation."
  else .toastError "Please provide the necessary input for documentation."

/-- Full submission pipeline: the zodResolver blocks onSubmit whenever
formSchema reports an issue (the first issue is surfaced on its field);
otherwise onSubmit runs. -/
def submitForm (v : FormValues) : SubmitOutcome :=
  match formSchemaIssues v with
  | [] => onSubmit v
  | (f, m) :: _ => .fieldError f m

/-- Input methods of the paste-capable form variant of
src/src/app/subscription/page.tsx (the staged client page after the
subscription route): the inputMethod enum has exactly url, file and text. -/
inductive InputMethod
  | url
  | file
  | text
deriving DecidableEq, Repr

/-- Uploaded file of the paste-capable form variant: its MIME type and the
data URI a successful readFileAsDataURL produces. -/
structure CodebaseFile where
  type : String
  dataUrl : String
deriving DecidableEq, Repr

/-- Values of the paste-capable form variant: codebaseInput carries the URL or
the pasted text depending on inputMethod. -/
structure SubFormValues where
  inputMethod : InputMethod
  codebaseInput : String
  codebaseFile : Option CodebaseFile
  uiOnlyMode : Bool
  uiDescription : String
deriving DecidableEq, Repr

/-- The JS startsWith check over the character lists. -/
def jsStartsWith (s pre : String) : Bool :=
  pre.data.isPrefixOf s.data

/-- superRefine issues of the paste-capable formSchema
(src/src/app/subscription/page.tsx lines 60 to 111), in source order: the
uiDescription requirement in uiOnlyMode; otherwise the GitHub-URL shape check,
the file presence and zip MIME checks, the 50-character trimmed minimum for
pasted text, and the fallback for an inputMethod outside the enum (unreachable
with the three-member enum). Each issue carries its path and message. -/
def subFormIssues (v : SubFormValues) : List (String × String) :=
  if v.uiOnlyMode then
    if jsTrim v.uiDescription = "" then
      [("uiDescription",
        "UI description or Figma link is required when UI-Only mode is enabled.")]
    else []
  else
    (if v.inputMethod = InputMethod.url ∧
        (v.codebaseInput = "" ∨
          ¬jsStartsWith v.codebaseInput "https://github.com/") then
      [("codebaseInput",
        "Please enter a valid GitHub repository URL (e.g., https://github.com/user/repo).")]
     else []) ++
    (if v.inputMethod = InputMethod.file ∧ v.codebaseFile = none then
      [("codebaseFile", "Please select a .zip file for codebase input.")]
     else []) ++
    (match v.inputMethod, v.codebaseFile with
     | InputMethod.file, some f =>
         if f.type ≠ "application/zip" ∧ f.type ≠ "application/x-zip-compressed" then
           [("codebaseFile", "Invalid file type. Please upload a .zip file.")]
         else []
     | _, _ => []) ++
    (if v.inputMethod = InputMethod.text ∧
        (v.codebaseInput = "" ∨ (jsTrim v.codebaseInput).length < 50) then
      [("codebaseInput",
        "Please paste a substantial code snippet (at least 50 characters).")]
     else []) ++
    (if v.inputMethod ≠ InputMethod.text ∧ v.inputMethod ≠ InputMethod.url ∧
        v.inputMethod ≠ InputMethod.file ∧ v.codebaseInput = "" ∧
        v.codebaseFile = none then
      [("codebaseInput", "Codebase input (URL, file, or text) is required.")]
     else [])

/-- onSubmit of the paste-capable form variant
(src/src/app/subscription/page.tsx lines 167 to 214): in uiOnlyMode a blank
uiDescription is a toast-only failure and otherwise the uiDescription is the
input; in code mode a present file under the file method is read as a data
URI, else a truthy codebaseInput (URL or pasted text) is the input. -/
def subOnSubmit (v : SubFormValues) : SubmitOutcome :=
  if v.uiOnlyMode then
    if v.uiDescription = "" ∨ jsTrim v.uiDescription = "" then
      .toastError "Please provide a UI description or Figma link when UI-Only mode is active."
    else .generate v.uiDescription true
  else if v.inputMethod = InputMethod.file ∧ v.codebaseFile.isSome then
    match v.codebaseFile with
    | some f => .generate f.dataUrl false
    | none => .toastError "Please provide codebase input (URL, file, or text)."
  else if v.codebaseInput ≠ "" then .generate v.codebaseInput false
  else .toastError "Please provide codebase input (URL, file, or text)."

/-- Full submission pipeline of the paste-capable form variant: the
zodResolver blocks onSubmit whenever the schema reports an issue (the first
issue is surfaced on its field); otherwise onSubmit runs. -/
def subSubmitForm (v : SubFormValues) : SubmitOutcome :=
  match subFormIssues v with
  | [] => subOnSubmit v
  | (f, m) :: _ => .fieldError f m

/-- Base64 alphabet of RFC 4648, the alphabet JSZip emits for type base64. -/
def base64Alphabet : List Char :=
  ['A', 'B', 'C', 'D', 'E', 'F', 'G', 'H', 'I', 'J', 'K', 'L', 'M',
   'N', 'O', 'P', 'Q', 'R', 'S', 'T', 'U', 'V', 'W', 'X', 'Y', 'Z',
   'a', 'b', 'c', 'd', 'e', 'f', 'g', 'h', 'i', 'j', 'k', 'l', 'm',
   'n', 'o', 'p', 'q', 'r', 's', 't', 'u', 'v', 'w', 'x', 'y', 'z',
   '0', '1', '2', '3', '4', '5', '6', '7', '8', '9', '+', '/']

/-- Character for a 6-bit group. -/
def b64Char (n : Nat) : Char := base64Alphabet.getD (n % 64) 'A'

/-- Base64 encoding of a byte list (bytes as Nat below 256), three bytes to
four characters with equals-sign padding. -/
def b64Encode : List Nat → List Char
  | [] => []
  | [a] => [b64Char (a / 4), b64Char (a % 4 * 16), '=', '=']
  | [a, b] => [b64Char (a / 4), b64Char (a % 4 * 16 + b / 16),
               b64Char (b % 16 * 4), '=']
  | a :: b :: c :: rest =>
      b64Char (a / 4) :: b64Char (a % 4 * 16 + b / 16) ::
        b64Char (b % 16 * 4 + c / 64) :: b64Char (c % 64) :: b64Encode rest

/-- A string is base64 text when every character is from the base64 alphabet
or the padding character, so it survives any text-only API boundary. -/
def isBase64String (s : String) : Prop :=
  ∀ ch ∈ s.data, ch ∈ base64Alphabet ∨ ch = '='

/-- UTF-8 bytes of a string, as Nat values. -/
def strBytes (s : String) : List Nat :=
  s.toUTF8.toList.map (fun b => b.toNat)

/-- Byte serialization of the archive entries. This models the external JSZip
packer (a third-party library, not code of this repository) as a concrete byte
producer over the entry list; the export theorems below depend only on the
produced bytes being base64-encoded afterwards, never on the zip byte layout. -/
def zipArchiveBytes : List (String × String) → List Nat
  | [] => []
  | (n, c) :: rest => strBytes n ++ [0] ++ strBytes c ++ [0] ++ zipArchiveBytes rest

/-- Output schema of the export-to-gitbook flow (src/unnamed/part_003 lines 20
to 26). -/
structure ExportToGitBookOutput where
  fileName : String
  mimeType : String
  content : String
  message : String
deriving DecidableEq, Repr

/-- Archive entries added by doExportToGitBookFlow (src/unnamed/part_003 lines
41 to 44): one zip.file call per truthy (nonempty) section, with the canonical
filenames, in source order. -/
def exportEntries (docs : GenerateDocumentationOutput) : List (String × String) :=
  (if docs.readme ≠ "" then [("README.md", docs.readme)] else []) ++
  (if docs.apiDocs ≠ "" then [("API_DOCS.md", docs.apiDocs)] else []) ++
  (if docs.userManual ≠ "" then [("USER_MANUAL.md", docs.userManual)] else []) ++
  (if docs.faq ≠ "" then [("FAQ.md", docs.faq)] else [])

/-- doExportToGitBookFlow (src/unnamed/part_003 lines 35 to 56): builds the
zip from the entries, encodes it as base64, and returns the fixed file name,
MIME type, content and message. -/
def doExportToGitBookFlow (docs : GenerateDocumentationOutput) :
    ExportToGitBookOutput :=
  { fileName := "AutoDocifyExport.zip"
    mimeType := "application/zip"
    content := String.mk (b64Encode (zipArchiveBytes (exportEntries docs)))
    message := "Successfully generated AutoDocifyExport.zip. Please download and import into GitBook." }

/-- Membership of every emitted base64 character in the alphabet. -/
theorem b64Char_mem (n : Nat) : b64Char n ∈ base64Alphabet := by
  have h : n % 64 < base64Alphabet.length := by
    have h0 : n % 64 < 64 := Nat.mod_lt _ (by decide)
    simpa [base64Alphabet] using h0
  rw [b64Char, List.getD_eq_getElem _ _ h]
  exact List.getElem_mem h

/-- Every character produced by b64Encode is in the base64 alphabet or is the
padding character. -/
theorem b64Encode_mem (l : List Nat) :
    ∀ ch ∈ b64Encode l, ch ∈ base64Alphabet ∨ ch = '=' := by
  induction l using b64Encode.induct with
  | case1 => intro ch h; simp [b64Encode] at h
  | case2 a =>
      intro ch h
      simp [b64Encode] at h
      rcases h with rfl | rfl | rfl
      · exact Or.inl (b64Char_mem _)
      · exact Or.inl (b64Char_mem _)
      · exact Or.inr rfl
  | case3 a b =>
      intro ch h
      simp [b64Encode] at h
      rcases h with rfl | rfl | rfl | rfl
      · exact Or.inl (b64Char_mem _)
      · exact Or.inl (b64Char_mem _)
      · exact Or.inl (b64Char_mem _)
      · exact Or.inr rfl
  | case4 a b c rest ih =>
      intro ch h
      simp [b64Encode] at h
      rcases h with rfl | rfl | rfl | rfl | h
      · exact Or.inl (b64Char_mem _)
      · exact Or.inl (b64Char_mem _)
      · exact Or.inl (b64Char_mem _)
      · exact Or.inl (b64Char_mem _)
      · exact ih ch h

/-- Claim C5: for every DocumentSet, the archive export produces exactly one
entry per non-empty section, under the canonical filenames README.md,
API_DOCS.md, USER_MANUAL.md and FAQ.md, and no other entries; an empty section
contributes no entry. -/
theorem export_archive_entries (d : GenerateDocumentationOutput) :
    (∀ n c, (n, c) ∈ exportEntries d ↔
      (n = "README.md" ∧ c = d.readme ∧ d.readme ≠ "") ∨
      (n = "API_DOCS.md" ∧ c = d.apiDocs ∧ d.apiDocs ≠ "") ∨
      (n = "USER_MANUAL.md" ∧ c = d.userManual ∧ d.userManual ≠ "") ∨
      (n = "FAQ.md" ∧ c = d.faq ∧ d.faq ≠ "")) ∧
    ((exportEntries d).map Prod.fst).Nodup := by
  constructor
  · intro n c
    unfold exportEntries
    split_ifs <;> simp_all
  · unfold exportEntries
    split_ifs <;> simp_all

/-- Claim C7: submitting a new full generation clears the DocumentSet (state
none) before the generation capability runs, and on a failed generation the
observed states end at none: the previous DocumentSet is not restored. -/
theorem generation_failure_leaves_cleared
    (prev : Option GenerateDocumentationOutput) (e : String) :
    submitDocsStates prev { data := none, error := some e } = [prev, none] ∧
    ∀ result : ActionResult GenerateDocumentationOutput,
      (submitDocsStates prev result).take 2 = [prev, none] := by
  constructor
  · unfold submitDocsStates
    split <;> rfl
  · intro result
    rfl

/-- Claim C8: for every DocumentSet, the archive export result carries the
MIME type application/zip, a filename, and packaged content consisting only of
base64 characters, hence transportable as text across an API boundary. -/
theorem export_is_base64_zip (d : GenerateDocumentationOutput) :
    (doExportToGitBookFlow d).mimeType = "application/zip" ∧
    (doExportToGitBookFlow d).fileName = "AutoDocifyExport.zip" ∧
    isBase64String (doExportToGitBookFlow d).content := by
  refine ⟨rfl, rfl, ?_⟩
  intro ch hch
  exact b64Encode_mem _ ch hch

/-- Claim C9: the server actions handleGenerateDocs and
handleRegenerateSection always return a resolved ActionResult: on a successful
flow the result carries the data and no error; when the flow throws, the
result carries no data and a non-empty error string, namely the thrown message
or the fixed fallback text when that message is empty. -/
theorem actions_always_resolve (ci : String) (u : Bool)
    (gflow : GenerateDocumentationInput →
      Except String GenerateDocumentationOutput)
    (c s t : String)
    (rflow : RegenerateDocumentationSectionInput →
      Except String RegenerateDocumentationSectionOutput) :
    (match gflow { codebase := ci, uiOnlyMode := u } with
     | .ok r => handleGenerateDocs ci u gflow = { data := some r, error := none }
     | .error m =>
         handleGenerateDocs ci u gflow =
           { data := none
             error := some (if m = "" then "Failed to generate documentation." else m) } ∧
         (if m = "" then "Failed to generate documentation." else m) ≠ "") ∧
    (match rflow (regenRequestOf c s t u) with
     | .ok r =>
         handleRegenerateSection c s t u rflow = { data := some r, error := none }
     | .error m =>
         handleRegenerateSection c s t u rflow =
           { data := none
             error := some (if m = "" then "Failed to regenerate section." else m) } ∧
         (if m = "" then "Failed to regenerate section." else m) ≠ "") := by
  constructor
  · cases hg : gflow { codebase := ci, uiOnlyMode := u } with
    | ok r => simp [handleGenerateDocs, hg]
    | error m =>
        refine ⟨by simp [handleGenerateDocs, hg], ?_⟩
        split_ifs with hm
        · decide
        · exact hm
  · cases hr : rflow (regenRequestOf c s t u) with
    | ok r => simp [handleRegenerateSection, hr]
    | error m =>
        refine ⟨by simp [handleRegenerateSection, hr], ?_⟩
        split_ifs with hm
        · decide
        · exact hm

/-- Claim C10: the regeneration request built by handleRegenerateSection is
independent of its uiOnlyMode parameter: two runs that differ only in
uiOnlyMode build the identical request and, against any fixed capability,
return the identical result. -/
theorem regen_independent_of_uiOnlyMode (c s t : String) :
    regenRequestOf c s t true = regenRequestOf c s t false ∧
    ∀ flow, handleRegenerateSection c s t true flow =
      handleRegenerateSection c s t false flow :=
  ⟨rfl, fun _ => rfl⟩

/-- Claim C6: a successful full generation installs all four sections in one
atomic replacement: the observed docs states are exactly the previous value,
the cleared state, and then the whole four-field response object; no observed
state carries a strict subset of the four sections from the response. -/
theorem generation_success_atomic
    (prev : Option GenerateDocumentationOutput)
    (out : GenerateDocumentationOutput)
    (result : ActionResult GenerateDocumentationOutput)
    (h : result = { data := some out, error := none }) :
    submitDocsStates prev result = [prev, none, some out] ∧
    ∀ st ∈ submitDocsStates prev result,
      st = prev ∨ st = none ∨ st = some out := by
  subst h
  refine ⟨rfl, ?_⟩
  intro st hst
  simp [submitDocsStates, strTruthy] at hst
  tauto

/-- Witness for generation_success_atomic at a concrete previous DocumentSet
and a concrete successful response. -/
theorem generation_success_atomic_witness :
    submitDocsStates (some ⟨"r0", "a0", "u0", "q0"⟩)
        { data := some ⟨"r1", "a1", "u1", "q1"⟩, error := none } =
      [some ⟨"r0", "a0", "u0", "q0"⟩, none, some ⟨"r1", "a1", "u1", "q1"⟩] ∧
    ∀ st ∈ submitDocsStates (some ⟨"r0", "a0", "u0", "q0"⟩)
        { data := some ⟨"r1", "a1", "u1", "q1"⟩, error := none },
      st = some ⟨"r0", "a0", "u0", "q0"⟩ ∨ st = none ∨
        st = some ⟨"r1", "a1", "u1", "q1"⟩ :=
  generation_success_atomic (some ⟨"r0", "a0", "u0", "q0"⟩)
    ⟨"r1", "a1", "u1", "q1"⟩ _ rfl

/-- Claim C1: a successful regeneration of a target section f through
onRegenerateSubmit overwrites exactly the field f of the DocumentSet with the
regeneratedContent from handleRegenerateSection; the other three fields are
byte-identical before and after. -/
theorem regenerate_overwrites_exactly_target
    (flow : RegenerateDocumentationSectionInput →
      Except String RegenerateDocumentationSectionOutput)
    (ctx tone : String) (u : Bool)
    (d : GenerateDocumentationOutput) (f : SectionId)
    (out : RegenerateDocumentationSectionOutput)
    (hctx : ctx ≠ "")
    (hflow : flow { codebase := ctx, sectionName := f.key, tone := tone } =
      Except.ok out) :
    ∃ next, onRegenerateSubmitWith flow ctx u (some d) f.key tone = some next ∧
      sectionGet next f = out.regeneratedContent ∧
      ∀ g : SectionId, g ≠ f → sectionGet next g = sectionGet d g := by
  refine ⟨updateSection d f.key out.regeneratedContent, ?_, ?_, ?_⟩
  · unfold onRegenerateSubmitWith handleRegenerateSection regenRequestOf
    simp [hctx, hflow, strTruthy]
  · cases f <;> simp [sectionGet, updateSection, SectionId.key]
  · intro g hg
    cases f <;> cases g <;>
      simp_all [sectionGet, updateSection, SectionId.key]

/-- Witness for regenerate_overwrites_exactly_target: regenerating the faq
section of a concrete DocumentSet with a capability that returns NEW. -/
theorem regenerate_overwrites_exactly_target_witness :
    ∃ next, onRegenerateSubmitWith (fun _ => Except.ok ⟨"NEW"⟩) "ctx" false
        (some ⟨"r0", "a0", "u0", "q0"⟩) SectionId.faq.key "formal" = some next ∧
      sectionGet next SectionId.faq = RegenerateDocumentationSectionOutput.regeneratedContent ⟨"NEW"⟩ ∧
      ∀ g : SectionId, g ≠ SectionId.faq →
        sectionGet next g = sectionGet ⟨"r0", "a0", "u0", "q0"⟩ g :=
  regenerate_overwrites_exactly_target (fun _ => Except.ok ⟨"NEW"⟩) "ctx"
    "formal" false ⟨"r0", "a0", "u0", "q0"⟩ SectionId.faq ⟨"NEW"⟩
    (by decide) rfl

/-- Claim C2: with uiOnlyMode set, the string handed to the generation
capability comes only from the uiDescription field, whatever githubUrl or
codeFile hold; and with an empty uiDescription the submission fails with a
validation error on the uiDescription field and never reaches the capability. -/
theorem uiOnly_uses_uiDescription (v : FormValues) (h : v.uiOnlyMode = true) :
    (∀ s b, submitForm v = SubmitOutcome.generate s b →
      s = v.uiDescription ∧ b = true) ∧
    (v.uiDescription = "" →
      ∃ m, submitForm v = SubmitOutcome.fieldError "uiDescription" m) ∧
    (v.uiDescription = "" →
      ∀ s b, submitForm v ≠ SubmitOutcome.generate s b) := by
  by_cases hd : v.uiDescription = ""
  · have hm : refineMain v = false := by simp [refineMain, h, hd]
    have hsub : submitForm v = SubmitOutcome.fieldError "uiDescription"
        "Input is required. For UI-Only mode, provide a UI description. For code mode, provide a GitHub URL or .zip file." := by
      simp [submitForm, formSchemaIssues, hm, refineUrl, refineFile, h]
    refine ⟨?_, fun _ => ⟨_, hsub⟩, ?_⟩
    · simp [hsub]
    · simp [hsub]
  · by_cases ht : jsTrim v.uiDescription = ""
    · have hm : refineMain v = false := by simp [refineMain, h, ht]
      have hsub : submitForm v = SubmitOutcome.fieldError "uiDescription"
          "Input is required. For UI-Only mode, provide a UI description. For code mode, provide a GitHub URL or .zip file." := by
        simp [submitForm, formSchemaIssues, hm, refineUrl, refineFile, h]
      refine ⟨?_, fun hd2 => absurd hd2 hd, fun hd2 => absurd hd2 hd⟩
      simp [hsub]
    · have hm : refineMain v = true := by simp [refineMain, h, hd, ht]
      have hsub : submitForm v = SubmitOutcome.generate v.uiDescription true := by
        simp [submitForm, formSchemaIssues, hm, refineUrl, refineFile, h,
          onSubmit, hd]
      refine ⟨?_, fun hd2 => absurd hd2 hd, fun hd2 => absurd hd2 hd⟩
      intro s b hg
      rw [hsub] at hg
      injection hg with h1 h2
      exact ⟨h1.symm, h2.symm⟩

/-- Concrete uiOnlyMode form with an empty uiDescription and a populated
githubUrl, for the witness of uiOnly_uses_uiDescription. -/
def uiOnlyEmptyForm : FormValues :=
  { inputType := InputType.url
    githubUrl := "https://github.com/user/repo"
    codeFile := none
    uiOnlyMode := true
    uiDescription := "" }

/-- Witness for uiOnly_uses_uiDescription at a form whose githubUrl is
populated while uiDescription is empty. -/
theorem uiOnly_uses_uiDescription_witness :
    (∀ s b, submitForm uiOnlyEmptyForm = SubmitOutcome.generate s b →
      s = uiOnlyEmptyForm.uiDescription ∧ b = true) ∧
    (uiOnlyEmptyForm.uiDescription = "" →
      ∃ m, submitForm uiOnlyEmptyForm = SubmitOutcome.fieldError "uiDescription" m) ∧
    (uiOnlyEmptyForm.uiDescription = "" →
      ∀ s b, submitForm uiOnlyEmptyForm ≠ SubmitOutcome.generate s b) :=
  uiOnly_uses_uiDescription uiOnlyEmptyForm rfl

/-- Claim C3: for pasted-text input with uiOnlyMode false (the paste-code
method of the form in src/src/app/subscription/page.tsx), validation accepts
any text meeting the 50-character minimum (the schema measures the trimmed
text) and sends exactly that text to the generation capability, and rejects
shorter text, such as the 5-character string short, with a ValidationError at
the codebaseInput field, before the generation capability is called. -/
theorem text_min_length_validated (v : SubFormValues)
    (hui : v.uiOnlyMode = false) (hm : v.inputMethod = InputMethod.text) :
    (50 ≤ (jsTrim v.codebaseInput).length →
      subSubmitForm v = SubmitOutcome.generate v.codebaseInput false) ∧
    ((jsTrim v.codebaseInput).length < 50 →
      subSubmitForm v = SubmitOutcome.fieldError "codebaseInput"
          "Please paste a substantial code snippet (at least 50 characters)." ∧
      ∀ s b, subSubmitForm v ≠ SubmitOutcome.generate s b) := by
  constructor
  · intro h50
    have hne : v.codebaseInput ≠ "" := by
      intro he
      rw [he] at h50
      have hz : (jsTrim "").length = 0 := rfl
      omega
    have hn50 : ¬((jsTrim v.codebaseInput).length < 50) := by omega
    simp [subSubmitForm, subFormIssues, subOnSubmit, hui, hm, hne, hn50]
  · intro hlt
    have hsub : subSubmitForm v = SubmitOutcome.fieldError "codebaseInput"
        "Please paste a substantial code snippet (at least 50 characters)." := by
      simp [subSubmitForm, subFormIssues, hui, hm, hlt]
    refine ⟨hsub, ?_⟩
    intro s b h
    rw [hsub] at h
    exact SubmitOutcome.noConfusion h

/-- Paste-method form carrying the 5-character text short. -/
def pasteShortForm : SubFormValues :=
  { inputMethod := InputMethod.text
    codebaseInput := "short"
    codebaseFile := none
    uiOnlyMode := false
    uiDescription := "" }

/-- Paste-method form carrying a 70-character code snippet. -/
def pasteLongForm : SubFormValues :=
  { inputMethod := InputMethod.text
    codebaseInput := "export function addNumbers(a, b) return a plus b end of sample snippet"
    codebaseFile := none
    uiOnlyMode := false
    uiDescription := "" }

/-- Witness for text_min_length_validated: a 70-character snippet is accepted
and sent to the capability; the 5-character text short is rejected with a
validation error at codebaseInput. -/
theorem text_min_length_validated_witness :
    subSubmitForm pasteLongForm =
      SubmitOutcome.generate pasteLongForm.codebaseInput false ∧
    subSubmitForm pasteShortForm = SubmitOutcome.fieldError "codebaseInput"
      "Please paste a substantial code snippet (at least 50 characters)." :=
  ⟨(text_min_length_validated pasteLongForm rfl rfl).1 (by decide),
   ((text_min_length_validated pasteShortForm rfl rfl).2 (by decide)).1⟩

/-- Claim C4 counterexample: a regeneration request whose section name banana
is outside the four fixed identifiers and whose tone sarcastic is outside the
fixed tone set is forwarded unchanged to the regeneration capability, which is
called and succeeds; no InvalidSection or InvalidTone error is produced. -/
theorem unknown_section_tone_forwarded :
    handleRegenerateSection "ctx" "banana" "sarcastic" false
        (fun i => Except.ok { regeneratedContent := i.sectionName ++ " " ++ i.tone }) =
      { data := some { regeneratedContent := "banana sarcastic" }, error := none } ∧
    "banana" ∉ sectionKeys ∧ "sarcastic" ∉ toneValues := by
  refine ⟨rfl, by decide, by decide⟩

/-- Claim C4 amended: neither the section name nor the tone of a regeneration
request is validated anywhere before the capability call: for every codebase,
section name and tone, including ones outside the fixed identifier and tone
sets, the request forwarded to the capability is exactly the triple of the
given strings, and a succeeding capability's output is returned with no
error. -/
theorem regen_no_section_or_tone_validation (c s t : String) (u : Bool)
    (out : RegenerateDocumentationSectionOutput)
    (hs : s ∉ sectionKeys) (ht : t ∉ toneValues) :
    regenRequestOf c s t u = { codebase := c, sectionName := s, tone := t } ∧
    handleRegenerateSection c s t u (fun _ => Except.ok out) =
      { data := some out, error := none } :=
  ⟨rfl, rfl⟩

/-- Witness for regen_no_section_or_tone_validation at the identifiers banana
and sarcastic. -/
theorem regen_no_section_or_tone_validation_witness :
    regenRequestOf "ctx" "banana" "sarcastic" false =
      { codebase := "ctx", sectionName := "banana", tone := "sarcastic" } ∧
    handleRegenerateSection "ctx" "banana" "sarcastic" false
        (fun _ => Except.ok ⟨"body"⟩) =
      { data := some ⟨"body"⟩, error := none } :=
  regen_no_section_or_tone_validation "ctx" "banana" "sarcastic" false
    ⟨"body"⟩ (by decide) (by decide)

end AutoDocify
